import Mathlib

/-!
Verification of the ITAssetManager authentication / multi-tenant core.

Shallow embedding of:
* `server/auth.ts` (src/unnamed/part_000): password utilities, JWT issue/verify;
* `server/routes.ts` (src/unnamed/part_001): register, login, asset handlers,
  support-mode token reissue;
* `shared/schema.ts`: zod validation schemas;
* `client/src/pages/applications.tsx` (src/unnamed/part_002): expiry warning
  and the per-asset monthly total row;
* `client/src/pages/register.tsx`: the client-side `onSubmit` guard.

Machine integers are modelled with `Nat`/`Int` (timestamps: JWT times in
seconds, expiry dates in milliseconds); JSON `number` cost amounts with `ℚ`;
absent / `null` JSON fields with `Option`.
-/

namespace ITAsset

/-! ## Session token service (server/auth.ts) -/

/-- The `supportMode` object stored in a token on impersonation entry. -/
structure SupportMode where
  companyId : String
  adminId : String
  startTime : String
  deriving DecidableEq, Repr

/-- The claims object produced by `jwtUtils.generateToken`'s payload mapping:
exactly userId, email, firstName, lastName, role and (when present) supportMode. -/
structure Claims where
  userId : Option String
  email : Option String
  firstName : Option String
  lastName : Option String
  role : Option String
  supportMode : Option SupportMode
  deriving DecidableEq, Repr

/-- The raw `payload: any` argument of `generateToken`: any of the copied
fields may be absent, and it may additionally carry `id`, `iat` and `exp`
(e.g. when a decoded token is spread into a new payload). -/
structure TokenInput where
  userId : Option String := none
  id : Option String := none
  email : Option String := none
  firstName : Option String := none
  lastName : Option String := none
  role : Option String := none
  supportMode : Option SupportMode := none
  iat : Option Int := none
  exp : Option Int := none
  deriving DecidableEq, Repr

/-- JavaScript `a || b` on possibly-absent strings: `a` unless it is falsy
(absent or the empty string). -/
def jsOr (a b : Option String) : Option String :=
  match a with
  | some s => if s = "" then b else some s
  | none => b

/-- Injective-style encoding of an optional string, used by the MAC model. -/
def encOpt (o : Option String) : String :=
  match o with
  | none => "#u"
  | some s => "#s" ++ s

/-- Encoding of an optional supportMode object, used by the MAC model. -/
def encSupport (o : Option SupportMode) : String :=
  match o with
  | none => "#n"
  | some m => "#m" ++ m.companyId ++ "|" ++ m.adminId ++ "|" ++ m.startTime

/-- Encoding of a token's signed content (claims, iat, exp) as a string. -/
def encClaims (c : Claims) (iat expAt : Int) : String :=
  encOpt c.userId ++ encOpt c.email ++ encOpt c.firstName ++ encOpt c.lastName ++
    encOpt c.role ++ encSupport c.supportMode ++ toString iat ++ "," ++ toString expAt

/-- Modelled from the spec: the HMAC used by the external `jsonwebtoken`
library to sign tokens (a concrete 64-bit keyed digest standing in for
HMAC-SHA256; verification only compares recomputed digests for equality). -/
def macHash (secret msg : String) : Nat :=
  (secret ++ "::" ++ msg).toList.foldl (fun a c => (a * 31 + c.toNat) % (2 ^ 64)) 7

/-- A signed token: claims plus issued-at, expiry (seconds) and signature. -/
structure SignedToken where
  claims : Claims
  iat : Int
  expAt : Int
  sig : Nat
  deriving DecidableEq, Repr

/-- A token string arriving over the wire: either a structurally well-formed
signed token or a malformed string. -/
inductive TokenWire where
  | well (t : SignedToken)
  | malformed (raw : String)
  deriving DecidableEq, Repr

/-- Modelled from the spec: `jwt.sign(payload, secret, expiresIn)` of the
external `jsonwebtoken` library — stamps issued-at and expiry and signs. -/
def jwtSign (secret : String) (c : Claims) (now expiresIn : Int) : SignedToken :=
  { claims := c
    iat := now
    expAt := now + expiresIn
    sig := macHash secret (encClaims c now (now + expiresIn)) }

/-- Modelled from the spec: `jwt.verify(token, secret)` of the external
`jsonwebtoken` library — throws on a malformed token, a bad signature or an
expired token, and returns the decoded token otherwise. -/
def jwtVerifyLib (secret : String) (w : TokenWire) (now : Int) : Except String SignedToken :=
  match w with
  | .malformed _ => .error "jwt malformed"
  | .well t =>
    if t.sig ≠ macHash secret (encClaims t.claims t.iat t.expAt) then .error "invalid signature"
    else if t.expAt ≤ now then .error "jwt expired"
    else .ok t

/-- Seconds in the `"7d"` expiry window passed to `jwt.sign`. -/
def sevenDaysSeconds : Int := 7 * 24 * 60 * 60

namespace jwtUtils

/-- `jwtUtils.generateToken` (server/auth.ts): maps the raw payload to the
final payload — userId falling back to id, email, firstName, lastName, role,
and supportMode only when present — then signs with a 7-day expiry. -/
def generateToken (secret : String) (payload : TokenInput) (now : Int) : SignedToken :=
  let finalPayload : Claims :=
    { userId := jsOr payload.userId payload.id
      email := payload.email
      firstName := payload.firstName
      lastName := payload.lastName
      role := payload.role
      supportMode := payload.supportMode }
  jwtSign secret finalPayload now sevenDaysSeconds

/-- `jwtUtils.verifyToken` (server/auth.ts): wraps `jwt.verify` in try/catch,
returning the decoded token on success and `none` on any failure. -/
def verifyToken (secret : String) (w : TokenWire) (now : Int) : Option SignedToken :=
  match jwtVerifyLib secret w now with
  | .ok t => some t
  | .error _ => none

end jwtUtils

/-! ## Password utilities (server/auth.ts) -/

/-- Modelled from the spec: the external `crypto` SHA-256 hex digest — a
deterministic one-way transform (a concrete stand-in digest function). -/
def sha256Hex (s : String) : String :=
  toString (macHash "sha256" s)

namespace passwordUtils

/-- `passwordUtils.hash` (server/auth.ts): SHA-256 digest of the password. -/
def hash (password : String) : String :=
  sha256Hex password

/-- `passwordUtils.verify` (server/auth.ts): recompute the digest and compare. -/
def verify (password storedHash : String) : Bool :=
  sha256Hex password == storedHash

end passwordUtils

/-! ## Tenant store data model (shared/schema.ts) -/

/-- A row of the users table (fields relevant to the handlers). -/
structure UserRow where
  id : String
  email : String
  passwordHash : String
  firstName : String
  lastName : String
  role : String
  deriving DecidableEq, Repr

/-- A row of the companies table (fields relevant to registration). -/
structure CompanyRow where
  id : String
  name : String
  plan : String
  ruc : Option String := none
  cedula : Option String := none
  deriving DecidableEq, Repr

/-- A UserCompany membership row. -/
structure UserCompanyRow where
  userId : String
  companyId : String
  role : String
  deriving DecidableEq, Repr

/-- An asset row, following the `Asset` interface of shared/schema.ts.
Dates are milliseconds since epoch; `null`/absent cost fields are `none`. -/
structure Asset where
  id : String := ""
  companyId : String := ""
  name : String := ""
  type : String := "physical"
  description : Option String := none
  serialNumber : Option String := none
  model : Option String := none
  manufacturer : Option String := none
  purchaseDate : Option Int := none
  warrantyExpiry : Option Int := none
  monthlyCost : Option ℚ := none
  annualCost : Option ℚ := none
  status : Option String := none
  location : Option String := none
  assignedTo : Option String := none
  notes : Option String := none
  applicationType : Option String := none
  url : Option String := none
  version : Option String := none
  domainCost : Option ℚ := none
  sslCost : Option ℚ := none
  hostingCost : Option ℚ := none
  serverCost : Option ℚ := none
  domainExpiry : Option Int := none
  sslExpiry : Option Int := none
  hostingExpiry : Option Int := none
  serverExpiry : Option Int := none
  deriving DecidableEq, Repr

/-- An ActivityLog row: (companyId, userId, action, entityType, entityId, entityName). -/
structure ActivityEntry where
  companyId : String
  userId : String
  action : String
  entityType : String
  entityId : String
  entityName : String
  deriving DecidableEq, Repr

/-- The tenant store state threaded through the handlers. -/
structure Store where
  users : List UserRow := []
  companies : List CompanyRow := []
  userCompanies : List UserCompanyRow := []
  assets : List Asset := []
  activityLog : List ActivityEntry := []
  deriving DecidableEq, Repr

/-- Modelled from the spec: `storage.getUserCompanies` (server/storage.ts is
not under src/) — the UserCompany memberships of the given user. -/
def getUserCompanies (st : Store) (userId : String) : List UserCompanyRow :=
  st.userCompanies.filter (fun uc => uc.userId == userId)

/-- Modelled from the spec: `storage.getAssetsByCompany` — the Tenant Store
asset query restricted to the given companyId. -/
def getAssetsByCompany (st : Store) (companyId : String) : List Asset :=
  st.assets.filter (fun a => a.companyId == companyId)

/-- Modelled from the spec: `storage.logActivity` — appends one immutable
record to the append-only activity log. -/
def logActivity (st : Store) (e : ActivityEntry) : Store :=
  { st with activityLog := st.activityLog ++ [e] }

/-- Caller membership in a company (the UserCompany relation). -/
def isMemberOf (st : Store) (userId companyId : String) : Bool :=
  st.userCompanies.any (fun uc => uc.userId == userId && uc.companyId == companyId)

/-! ## Zod validation schemas (shared/schema.ts) -/

/-- `z.string().min(n)` as a boolean length check. -/
def minLen (n : Nat) (s : String) : Bool :=
  decide (n ≤ s.length)

/-- Shallow model of `z.string().email()`: the string contains an at-sign.
(The zod email regex is abstracted to a decidable shape predicate; none of
the claims depend on its exact extension.) -/
def emailShape (s : String) : Bool :=
  s.toList.contains '@'

/-- All characters are ASCII digits (the `\d` class of the zod regexes). -/
def digitsOnly (s : String) : Bool :=
  s.toList.all Char.isDigit

/-- The `ruc` field rule of `companyRegistrationSchema`:
`z.string().optional().refine(!val || /^\d{13}$/.test(val))` — absent or
empty passes; otherwise exactly 13 digits. -/
def rucFieldOk (v : Option String) : Bool :=
  match v with
  | none => true
  | some s => if s = "" then true else (s.length == 13) && digitsOnly s

/-- The `cedula` field rule of `companyRegistrationSchema`:
absent or empty passes; otherwise exactly 10 digits. -/
def cedulaFieldOk (v : Option String) : Bool :=
  match v with
  | none => true
  | some s => if s = "" then true else (s.length == 10) && digitsOnly s

/-- The raw body of a registration request. -/
structure RegistrationInput where
  name : String
  plan : String
  ruc : Option String := none
  cedula : Option String := none
  address : String
  phone : String
  email : String
  firstName : String
  lastName : String
  password : String
  confirmPassword : String
  deriving DecidableEq, Repr

/-- `z.enum(["pyme", "professional"])`. -/
def planOk (p : String) : Bool :=
  p == "pyme" || p == "professional"

/-- `companyRegistrationSchema` (shared/schema.ts 280-299): field shape rules
plus the password-confirmation refine. -/
def companyRegistrationValid (r : RegistrationInput) : Bool :=
  minLen 1 r.name && planOk r.plan && rucFieldOk r.ruc && cedulaFieldOk r.cedula &&
    minLen 1 r.address && minLen 1 r.phone && emailShape r.email &&
    minLen 1 r.firstName && minLen 1 r.lastName &&
    minLen 6 r.password && (r.password == r.confirmPassword)

/-- `loginSchema` (shared/schema.ts): email shape and non-empty password. -/
def loginInputValid (email password : String) : Bool :=
  emailShape email && minLen 1 password

/-- `z.enum` of asset types in `insertAssetSchema`. -/
def assetTypeOk (t : String) : Bool :=
  t == "physical" || t == "application" || t == "license" || t == "contract"

/-- Optional `z.enum` of asset statuses in `insertAssetSchema`. -/
def assetStatusOk (s : Option String) : Bool :=
  match s with
  | none => true
  | some v => v == "active" || v == "inactive" || v == "maintenance" ||
      v == "deprecated" || v == "disposed"

/-- Optional `z.enum` of application types in `insertAssetSchema`. -/
def applicationTypeOk (s : Option String) : Bool :=
  match s with
  | none => true
  | some v => v == "saas" || v == "custom_development"

/-- The raw body of an asset-creation request: like `Asset` but without an id
and with `companyId` possibly absent (the handler injects it). -/
structure AssetBody where
  companyId : Option String := none
  name : String := ""
  type : String := "physical"
  description : Option String := none
  serialNumber : Option String := none
  model : Option String := none
  manufacturer : Option String := none
  purchaseDate : Option Int := none
  warrantyExpiry : Option Int := none
  monthlyCost : Option ℚ := none
  annualCost : Option ℚ := none
  status : Option String := none
  location : Option String := none
  assignedTo : Option String := none
  notes : Option String := none
  applicationType : Option String := none
  url : Option String := none
  version : Option String := none
  domainCost : Option ℚ := none
  sslCost : Option ℚ := none
  hostingCost : Option ℚ := none
  serverCost : Option ℚ := none
  domainExpiry : Option Int := none
  sslExpiry : Option Int := none
  hostingExpiry : Option Int := none
  serverExpiry : Option Int := none
  deriving DecidableEq, Repr

/-- `insertAssetSchema.parse` (shared/schema.ts 194-221) as a boolean check
over the typed body: companyId a required string, name non-empty, type in the
enum, optional status/applicationType in their enums (the remaining fields
are pure type checks subsumed by the embedding's types). -/
def insertAssetValid (b : AssetBody) : Bool :=
  b.companyId.isSome && minLen 1 b.name && assetTypeOk b.type &&
    assetStatusOk b.status && applicationTypeOk b.applicationType

/-- The asset row created from a validated body and a fresh id. -/
def mkAsset (newId : String) (b : AssetBody) : Asset :=
  { id := newId
    companyId := b.companyId.getD ""
    name := b.name
    type := b.type
    description := b.description
    serialNumber := b.serialNumber
    model := b.model
    manufacturer := b.manufacturer
    purchaseDate := b.purchaseDate
    warrantyExpiry := b.warrantyExpiry
    monthlyCost := b.monthlyCost
    annualCost := b.annualCost
    status := b.status
    location := b.location
    assignedTo := b.assignedTo
    notes := b.notes
    applicationType := b.applicationType
    url := b.url
    version := b.version
    domainCost := b.domainCost
    sslCost := b.sslCost
    hostingCost := b.hostingCost
    serverCost := b.serverCost
    domainExpiry := b.domainExpiry
    sslExpiry := b.sslExpiry
    hostingExpiry := b.hostingExpiry
    serverExpiry := b.serverExpiry }

/-! ## HTTP handlers (server/routes.ts, src/unnamed/part_001) -/

/-- JavaScript falsiness of an optional string: absent or empty. -/
def jsFalsyStr (o : Option String) : Bool :=
  match o with
  | none => true
  | some s => s == ""

/-- POST /api/login (part_001 315-360): validate shape, look up by email,
verify the password, answer 401 with one fixed message on either failure.
A zod parse failure is caught by the handler's catch-all and answered 500. -/
def loginHandler (st : Store) (email password : String) : Nat × String :=
  if loginInputValid email password then
    match st.users.find? (fun u => u.email == email) with
    | none => (401, "Email o contraseña incorrectos")
    | some user =>
      if passwordUtils.verify password user.passwordHash then (200, "Login exitoso")
      else (401, "Email o contraseña incorrectos")
  else (500, "Error al iniciar sesión")

/-- Body of a GET /api/assets/:companyId response. -/
inductive AssetsResponse where
  | unauthorized
  | rows (assets : List Asset)
  deriving DecidableEq, Repr

/-- GET /api/assets/:companyId (part_001 574-583) behind the `isAuthenticated`
middleware (part_000): with a decoded user carrying a truthy userId, the
handler returns the company's assets keyed by the path parameter alone. -/
def getAssetsHandler (st : Store) (reqUser : Option Claims) (companyId : String) :
    Nat × AssetsResponse :=
  match reqUser with
  | none => (401, .unauthorized)
  | some u =>
    match u.userId with
    | none => (401, .unauthorized)
    | some uid =>
      if uid = "" then (401, .unauthorized)
      else (200, .rows (getAssetsByCompany st companyId))

/-- Result of the POST /api/assets handler. -/
inductive CreateAssetResponse where
  | forbidden (message : String)
  | validationError (message : String)
  | serverError (message : String)
  | created (asset : Asset)
  deriving DecidableEq, Repr

/-- POST /api/assets (part_001 585-639): take the caller's memberships, 403 if
none, inject the first membership's companyId into the body, validate, set
assignedTo to the caller, insert, then log one "created" activity entry.
`newId` is the id the store would assign; `insertOk` models whether the
external insert succeeds (a throwing insert is answered 500 by the catch,
which skips the log write). -/
def createAssetHandler (st : Store) (userId : String) (body : AssetBody)
    (newId : String) (insertOk : Bool) : CreateAssetResponse × Store :=
  match getUserCompanies st userId with
  | [] => (.forbidden "Usuario no asociado a ninguna empresa activa.", st)
  | uc :: _ =>
    let companyIdFromDB := uc.companyId
    let dataToValidate := { body with companyId := some companyIdFromDB }
    if insertAssetValid dataToValidate then
      let dataToInsert := { dataToValidate with assignedTo := some userId }
      if insertOk then
        let asset := mkAsset newId dataToInsert
        let st1 := { st with assets := st.assets ++ [asset] }
        let st2 := logActivity st1
          ⟨companyIdFromDB, userId, "created", "asset", asset.id, asset.name⟩
        (.created asset, st2)
      else (.serverError "Error al crear el activo", st)
    else (.validationError "Error de validación en los datos del activo", st)

/-- POST /api/register (part_001 208-265) with `storage.registerCompany`
modelled from the spec (server/storage.ts is not under src/): atomically
create Company, User (role manager_owner) and the UserCompany link, failing
on a duplicate email or a duplicate RUC/cedula. A zod parse failure is routed
through the handler's catch, which answers 500 for a ZodError. -/
def registerHandler (st : Store) (r : RegistrationInput) (companyId userId : String) :
    (Nat × String) × Store :=
  if companyRegistrationValid r then
    if st.users.any (fun u => u.email == r.email) then
      ((400, "El email ya está registrado"), st)
    else if (r.ruc.isSome && st.companies.any (fun c => c.ruc == r.ruc)) ||
        (r.cedula.isSome && st.companies.any (fun c => c.cedula == r.cedula)) then
      ((400, "Ya existe una empresa con este RUC/Cédula o email"), st)
    else
      let passwordHash := passwordUtils.hash r.password
      let company : CompanyRow := ⟨companyId, r.name, r.plan, r.ruc, r.cedula⟩
      let user : UserRow := ⟨userId, r.email, passwordHash, r.firstName, r.lastName, "manager_owner"⟩
      let st1 : Store :=
        { st with users := st.users ++ [user]
                  companies := st.companies ++ [company]
                  userCompanies := st.userCompanies ++ [⟨userId, companyId, "manager_owner"⟩] }
      ((200, "Empresa registrada exitosamente"), st1)
  else ((500, "Error al registrar empresa"), st)

/-- Outcome of the client-side register form submit. -/
inductive SubmitAction where
  | blocked (message : String)
  | submitted
  deriving DecidableEq, Repr

/-- `onSubmit` (client/src/pages/register.tsx 60-81): block submission with a
toast when plan pyme has a falsy ruc, or plan professional a falsy cedula. -/
def registerOnSubmit (data : RegistrationInput) : SubmitAction :=
  if data.plan == "pyme" && jsFalsyStr data.ruc then
    .blocked "El RUC es obligatorio para empresas PyME."
  else if data.plan == "professional" && jsFalsyStr data.cedula then
    .blocked "La Cédula es obligatoria para profesionales."
  else .submitted

/-- POST /api/admin/support-access/:companyId (part_001 886-896): the payload
handed to `generateToken` is the decoded request user spread together with a
fresh supportMode object (the spread carries the old token's iat and exp). -/
def supportAccessPayload (reqUser : SignedToken) (sm : SupportMode) : TokenInput :=
  { userId := reqUser.claims.userId
    id := none
    email := reqUser.claims.email
    firstName := reqUser.claims.firstName
    lastName := reqUser.claims.lastName
    role := reqUser.claims.role
    supportMode := some sm
    iat := some reqUser.iat
    exp := some reqUser.expAt }

/-- POST /api/admin/exit-support (part_001 940-949): the payload handed to
`generateToken` is the decoded request user with supportMode deleted (iat and
exp still carried over by the spread). -/
def exitSupportPayload (reqUser : SignedToken) : TokenInput :=
  { userId := reqUser.claims.userId
    id := none
    email := reqUser.claims.email
    firstName := reqUser.claims.firstName
    lastName := reqUser.claims.lastName
    role := reqUser.claims.role
    supportMode := none
    iat := some reqUser.iat
    exp := some reqUser.expAt }

/-! ## Expiration warning (client applications page, src/unnamed/part_002) -/

/-- Milliseconds in the 30-day lookahead window. -/
def thirtyDaysMs : Int := 30 * 24 * 60 * 60 * 1000

/-- `getExpiryWarning` (part_002 112-136): collect the present values of
domainExpiry, sslExpiry, hostingExpiry and serverExpiry; report
`("expired", count)` when any is strictly before now, else
`("expiring", count)` when any lies in [now, now + 30 days], else nothing. -/
def getExpiryWarning (app : Asset) (now : Int) : Option (String × Nat) :=
  let thirtyDaysFromNow := now + thirtyDaysMs
  let expiries := [app.domainExpiry, app.sslExpiry, app.hostingExpiry, app.serverExpiry].filterMap id
  let expired := expiries.filter (fun d => decide (d < now))
  let expiringSoon := expiries.filter (fun d => decide (now ≤ d ∧ d ≤ thirtyDaysFromNow))
  if expired.length > 0 then some ("expired", expired.length)
  else if expiringSoon.length > 0 then some ("expiring", expiringSoon.length)
  else none

/-- The three-valued expiration status of the spec. -/
inductive ExpStatus where
  | expired
  | expiringSoon
  | nothing
  deriving DecidableEq, Repr

/-- Per-field expiration status as the spec words it: expired when the date is
strictly before the reference time, expiringSoon when it lies in
[referenceTime, referenceTime + 30 days], else none. -/
def fieldStatus (now : Int) (d : Option Int) : ExpStatus :=
  match d with
  | none => .nothing
  | some t =>
    if t < now then .expired
    else if t ≤ now + thirtyDaysMs then .expiringSoon
    else .nothing

/-- Spec-worded aggregate over the four infrastructure expiry fields actually
read by `getExpiryWarning`: expired if any field is expired, else
expiringSoon if any field is in the window, else none. -/
def specAggregate4 (a : Asset) (now : Int) : ExpStatus :=
  let fs := [fieldStatus now a.domainExpiry, fieldStatus now a.sslExpiry,
    fieldStatus now a.hostingExpiry, fieldStatus now a.serverExpiry]
  if fs.contains .expired then .expired
  else if fs.contains .expiringSoon then .expiringSoon
  else .nothing

/-- The claim's aggregate, worded over five tracked fields including
warrantyExpiry (for comparison against the code's four-field computation). -/
def specAggregate5 (a : Asset) (now : Int) : ExpStatus :=
  let fs := [fieldStatus now a.warrantyExpiry, fieldStatus now a.domainExpiry,
    fieldStatus now a.sslExpiry, fieldStatus now a.hostingExpiry,
    fieldStatus now a.serverExpiry]
  if fs.contains .expired then .expired
  else if fs.contains .expiringSoon then .expiringSoon
  else .nothing

/-- The aggregate status encoded by a `getExpiryWarning` result. -/
def warningType (w : Option (String × Nat)) : ExpStatus :=
  match w with
  | none => .nothing
  | some p =>
    if p.1 = "expired" then .expired
    else if p.1 = "expiring" then .expiringSoon
    else .nothing

/-! ## Cost totals (client applications page, src/unnamed/part_002) -/

/-- The per-asset total row (part_002 359-364): monthlyCost plus the four
infrastructure sub-costs, each `Number(x || 0)` — missing/null contributes 0. -/
def perAssetMonthlyTotal (a : Asset) : ℚ :=
  a.monthlyCost.getD 0 + a.domainCost.getD 0 + a.sslCost.getD 0 +
    a.hostingCost.getD 0 + a.serverCost.getD 0

/-- Modelled from the spec: the monthlyTotal of
`storage.getCompanyCostSummary` (server/storage.ts is not under src/) — the
sum over the assets of monthlyCost plus the four infrastructure sub-costs,
missing/null cost fields contributing 0 (the per-asset summand is the source
total row of part_002 359-364). -/
def monthlyTotal (assets : List Asset) : ℚ :=
  (assets.map perAssetMonthlyTotal).sum

/-! ## Concrete fixtures -/

/-- An asset belonging to company B. -/
def assetB : Asset :=
  { id := "as1", companyId := "B", name := "ServerB" }

/-- Decoded token claims of user u1. -/
def claimsU1 : Claims :=
  { userId := some "u1", email := some "alice@a.com", firstName := some "Alice",
    lastName := some "Lee", role := some "manager_owner", supportMode := none }

/-- A store where u1 is a member of company A only, and company B owns one asset. -/
def storeC1 : Store :=
  { users := [⟨"u1", "alice@a.com", "h", "Alice", "Lee", "manager_owner"⟩]
    companies := [⟨"A", "CompA", "pyme", none, none⟩, ⟨"B", "CompB", "professional", none, none⟩]
    userCompanies := [⟨"u1", "A", "manager_owner"⟩]
    assets := [assetB]
    activityLog := [] }

/-! ## Claim theorems -/

/-- C1: the spec requires GET /api/assets/:companyId to answer 403 Forbidden
when the caller has no UserCompany membership in the named company and never
to return its asset rows; evaluating the handler shows the opposite — u1,
authenticated and a member of company A only, requests company B's assets and
receives 200 with company B's rows. The handler performs no membership check. -/
theorem c1_cross_tenant_assets_returned :
    isMemberOf storeC1 "u1" "B" = false ∧
    getAssetsHandler storeC1 (some claimsU1) "B" = (200, .rows [assetB]) := by
  decide

/-- The empty tenant store. -/
def emptyStore : Store := {}

/-- A shape-valid pyme registration carrying no RUC at all. -/
def rPyme : RegistrationInput :=
  { name := "Acme", plan := "pyme", ruc := none, cedula := none, address := "Av 1"
    phone := "0991234567", email := "owner@acme.com", firstName := "Ana", lastName := "Vera"
    password := "secret1", confirmPassword := "secret1" }

/-- C2 counterexample: a registration with plan pyme and no RUC passes
`companyRegistrationSchema` (the ruc refine accepts an absent value) and the
register handler creates the company — it does not fail with a
ValidationError and it does not create nothing, refuting the claim as stated. -/
theorem c2_pyme_without_ruc_registers :
    companyRegistrationValid rPyme = true ∧
    (registerHandler emptyStore rPyme "c1" "u1").fst = (200, "Empresa registrada exitosamente") ∧
    (registerHandler emptyStore rPyme "c1" "u1").snd.companies = [⟨"c1", "Acme", "pyme", none, none⟩] := by
  decide

/-- C2 (amended): the schema enforces the identifier format only when the
field is present and non-empty — a pyme registration with a present,
non-empty RUC that is not 13 numeric digits (resp. professional with a
present, non-empty cedula that is not 10 numeric digits) fails validation and
the handler creates nothing; the presence requirement itself is enforced only
client-side, where `onSubmit` blocks the submission. -/
theorem c2_identifier_validation (st : Store) (r : RegistrationInput) (cid uid : String) :
    (∀ s, r.plan = "pyme" → r.ruc = some s → s ≠ "" →
      (s.length ≠ 13 ∨ digitsOnly s = false) →
      companyRegistrationValid r = false ∧
      registerHandler st r cid uid = ((500, "Error al registrar empresa"), st)) ∧
    (∀ s, r.plan = "professional" → r.cedula = some s → s ≠ "" →
      (s.length ≠ 10 ∨ digitsOnly s = false) →
      companyRegistrationValid r = false ∧
      registerHandler st r cid uid = ((500, "Error al registrar empresa"), st)) ∧
    (r.plan = "pyme" → jsFalsyStr r.ruc = true →
      registerOnSubmit r = .blocked "El RUC es obligatorio para empresas PyME.") ∧
    (r.plan = "professional" → jsFalsyStr r.cedula = true →
      registerOnSubmit r = .blocked "La Cédula es obligatoria para profesionales.") := by
  refine ⟨?_, ?_, ?_, ?_⟩
  · intro s hplan hruc hne hbad
    have hr : rucFieldOk r.ruc = false := by
      rw [hruc]
      simp only [rucFieldOk]
      rw [if_neg hne]
      rcases hbad with h | h
      · simp [h]
      · simp [h]
    have hvalid : companyRegistrationValid r = false := by
      simp [companyRegistrationValid, hr]
    exact ⟨hvalid, by simp [registerHandler, hvalid]⟩
  · intro s hplan hced hne hbad
    have hc : cedulaFieldOk r.cedula = false := by
      rw [hced]
      simp only [cedulaFieldOk]
      rw [if_neg hne]
      rcases hbad with h | h
      · simp [h]
      · simp [h]
    have hvalid : companyRegistrationValid r = false := by
      simp [companyRegistrationValid, hc]
    exact ⟨hvalid, by simp [registerHandler, hvalid]⟩
  · intro hplan hfals
    simp [registerOnSubmit, hplan, hfals]
  · intro hplan hfals
    simp [registerOnSubmit, hplan, hfals]

/-- A pyme registration whose RUC is present but only three digits. -/
def rPymeBadRuc : RegistrationInput :=
  { rPyme with ruc := some "123" }

/-- C2 witness: the amended theorem applied at a concrete malformed input. -/
theorem c2_identifier_validation_witness :
    companyRegistrationValid rPymeBadRuc = false ∧
    registerHandler emptyStore rPymeBadRuc "c9" "u9" = ((500, "Error al registrar empresa"), emptyStore) :=
  (c2_identifier_validation emptyStore rPymeBadRuc "c9" "u9").1 "123" rfl rfl
    (by decide) (Or.inl (by decide))

/-- C3: for a pair of shape-valid failed logins — one whose email is not in
the store, one whose email is found but whose password digest does not match —
the handler answers 401 in both runs and the response messages are equal
(byte-identical), so the responses do not reveal whether the email exists. -/
theorem c3_login_indistinguishable (st : Store) (e1 p1 e2 p2 : String) (u : UserRow)
    (h1 : loginInputValid e1 p1 = true)
    (h2 : loginInputValid e2 p2 = true)
    (hmiss : st.users.find? (fun x => x.email == e1) = none)
    (hfound : st.users.find? (fun x => x.email == e2) = some u)
    (hwrong : passwordUtils.verify p2 u.passwordHash = false) :
    loginHandler st e1 p1 = (401, "Email o contraseña incorrectos") ∧
    loginHandler st e2 p2 = (401, "Email o contraseña incorrectos") ∧
    (loginHandler st e1 p1).2 = (loginHandler st e2 p2).2 := by
  have hA : loginHandler st e1 p1 = (401, "Email o contraseña incorrectos") := by
    simp [loginHandler, h1, hmiss]
  have hB : loginHandler st e2 p2 = (401, "Email o contraseña incorrectos") := by
    simp [loginHandler, h2, hfound, hwrong]
  exact ⟨hA, hB, by rw [hA, hB]⟩

/-- A stored user whose password is "correct1". -/
def userBob : UserRow :=
  ⟨"u2", "bob@corp.com", passwordUtils.hash "correct1", "Bob", "Kim", "manager_owner"⟩

/-- A store holding only user bob. -/
def storeC3 : Store := { users := [userBob] }

/-- C3 witness: the theorem applied to a concrete unknown-email run and a
concrete wrong-password run against the same store. -/
theorem c3_login_indistinguishable_witness :
    loginHandler storeC3 "nobody@corp.com" "whatever" = (401, "Email o contraseña incorrectos") ∧
    loginHandler storeC3 "bob@corp.com" "wrongpass" = (401, "Email o contraseña incorrectos") ∧
    (loginHandler storeC3 "nobody@corp.com" "whatever").2 =
      (loginHandler storeC3 "bob@corp.com" "wrongpass").2 :=
  c3_login_indistinguishable storeC3 "nobody@corp.com" "whatever" "bob@corp.com" "wrongpass"
    userBob (by decide) (by decide) (by decide) (by decide) (by decide)

/-- An asset whose only expiry date is a warranty already in the past. -/
def assetWarrantyOnly : Asset :=
  { id := "w1", companyId := "A", name := "Old laptop", warrantyExpiry := some (-1) }

/-- C4 counterexample: at reference time 0, an asset whose warrantyExpiry is
in the past (and has no other date fields) is `expired` under the claim's
five-field aggregate, yet `getExpiryWarning` — which reads only domainExpiry,
sslExpiry, hostingExpiry and serverExpiry — reports no warning at all. -/
theorem c4_warranty_not_tracked :
    specAggregate5 assetWarrantyOnly 0 = ExpStatus.expired ∧
    getExpiryWarning assetWarrantyOnly 0 = none ∧
    warningType (getExpiryWarning assetWarrantyOnly 0) = ExpStatus.nothing := by
  decide

/-- A positive count in a filtered option list means some present value
satisfies the predicate. -/
theorem filterPosIff (p : Int → Bool) (os : List (Option Int)) :
    0 < ((os.filterMap id).filter p).length ↔ ∃ t, some t ∈ os ∧ p t = true := by
  rw [List.length_pos]
  constructor
  · intro h
    rcases List.exists_mem_of_ne_nil _ h with ⟨t, ht⟩
    rcases List.mem_filter.mp ht with ⟨htm, htp⟩
    rcases List.mem_filterMap.mp htm with ⟨o, ho, hid⟩
    have ho2 : o = some t := by simpa using hid
    exact ⟨t, ho2 ▸ ho, htp⟩
  · rintro ⟨t, htm, htp⟩
    intro hnil
    have hmem : t ∈ (os.filterMap id).filter p :=
      List.mem_filter.mpr ⟨List.mem_filterMap.mpr ⟨some t, htm, rfl⟩, htp⟩
    simp [hnil] at hmem

/-- A field is `expired` exactly when it is present and strictly before now. -/
theorem fieldStatusExpiredIff (now : Int) (o : Option Int) :
    fieldStatus now o = ExpStatus.expired ↔ ∃ t, o = some t ∧ t < now := by
  cases o with
  | none => simp [fieldStatus]
  | some t =>
    simp only [fieldStatus, Option.some.injEq]
    split_ifs with h1 h2 <;> simp_all

/-- A field is `expiringSoon` exactly when it is present and in the window. -/
theorem fieldStatusSoonIff (now : Int) (o : Option Int) :
    fieldStatus now o = ExpStatus.expiringSoon ↔
      ∃ t, o = some t ∧ now ≤ t ∧ t ≤ now + thirtyDaysMs := by
  cases o with
  | none => simp [fieldStatus]
  | some t =>
    simp only [fieldStatus, Option.some.injEq]
    split_ifs with h1 h2 <;> simp_all

/-- Status membership in the mapped field list, as an existential. -/
theorem containsStatusIff (os : List (Option Int)) (now : Int) (x : ExpStatus) :
    (os.map (fieldStatus now)).contains x = true ↔ ∃ o ∈ os, fieldStatus now o = x := by
  rw [List.contains_iff_exists_mem_beq]
  constructor
  · rintro ⟨y, hy, hbeq⟩
    rcases List.mem_map.mp hy with ⟨o, ho, rfl⟩
    exact ⟨o, ho, (beq_iff_eq.mp hbeq).symm⟩
  · rintro ⟨o, ho, hfo⟩
    exact ⟨x, List.mem_map.mpr ⟨o, ho, hfo⟩, beq_iff_eq.mpr rfl⟩

/-- C4 (amended): for every asset and reference time, the aggregate status
reported by `getExpiryWarning` equals the spec's per-field aggregate computed
over the four fields the code tracks — domainExpiry, sslExpiry, hostingExpiry
and serverExpiry (warrantyExpiry is not among them): a field is expired when
strictly before the reference time, expiringSoon when within
[referenceTime, referenceTime + 30 days]; the asset is expired when any field
is expired (priority over expiringSoon), else expiringSoon when any field is
in the window, else none. -/
theorem c4_expiry_status (a : Asset) (now : Int) :
    warningType (getExpiryWarning a now) = specAggregate4 a now := by
  have hmap : [fieldStatus now a.domainExpiry, fieldStatus now a.sslExpiry,
      fieldStatus now a.hostingExpiry, fieldStatus now a.serverExpiry] =
      ([a.domainExpiry, a.sslExpiry, a.hostingExpiry, a.serverExpiry].map (fieldStatus now)) := by
    simp
  have hE : (0 < (([a.domainExpiry, a.sslExpiry, a.hostingExpiry, a.serverExpiry].filterMap id).filter
      (fun d => decide (d < now))).length) ↔
      (([a.domainExpiry, a.sslExpiry, a.hostingExpiry, a.serverExpiry].map (fieldStatus now)).contains
        ExpStatus.expired = true) := by
    rw [filterPosIff, containsStatusIff]
    constructor
    · rintro ⟨t, htm, htp⟩
      exact ⟨some t, htm, (fieldStatusExpiredIff now _).mpr ⟨t, rfl, by simpa using htp⟩⟩
    · rintro ⟨o, ho, hfo⟩
      rcases (fieldStatusExpiredIff now o).mp hfo with ⟨t, rfl, hlt⟩
      exact ⟨t, ho, by simpa using hlt⟩
  have hS : (0 < (([a.domainExpiry, a.sslExpiry, a.hostingExpiry, a.serverExpiry].filterMap id).filter
      (fun d => decide (now ≤ d ∧ d ≤ now + thirtyDaysMs))).length) ↔
      (([a.domainExpiry, a.sslExpiry, a.hostingExpiry, a.serverExpiry].map (fieldStatus now)).contains
        ExpStatus.expiringSoon = true) := by
    rw [filterPosIff, containsStatusIff]
    constructor
    · rintro ⟨t, htm, htp⟩
      exact ⟨some t, htm, (fieldStatusSoonIff now _).mpr ⟨t, rfl, by simpa using htp⟩⟩
    · rintro ⟨o, ho, hfo⟩
      rcases (fieldStatusSoonIff now o).mp hfo with ⟨t, rfl, hin⟩
      exact ⟨t, ho, by simpa using hin⟩
  simp only [getExpiryWarning, specAggregate4, hmap]
  by_cases hExp : (([a.domainExpiry, a.sslExpiry, a.hostingExpiry, a.serverExpiry].map
      (fieldStatus now)).contains ExpStatus.expired = true)
  · rw [if_pos (hE.mpr hExp), if_pos hExp]
    simp [warningType]
  · rw [if_neg (fun h => hExp (hE.mp h)), if_neg hExp]
    by_cases hSoon : (([a.domainExpiry, a.sslExpiry, a.hostingExpiry, a.serverExpiry].map
        (fieldStatus now)).contains ExpStatus.expiringSoon = true)
    · rw [if_pos (hS.mpr hSoon), if_pos hSoon]
      simp [warningType]
    · rw [if_neg (fun h => hSoon (hS.mp h)), if_neg hSoon]
      simp [warningType]

/-- An application asset costing 10 monthly, no sub-costs. -/
def assetCost10 : Asset :=
  { id := "a1", companyId := "A", name := "App1", type := "application", monthlyCost := some 10 }

/-- An application asset costing 20 monthly plus a domain cost of 5. -/
def assetCost20d5 : Asset :=
  { id := "a2", companyId := "A", name := "App2", type := "application",
    monthlyCost := some 20, domainCost := some 5 }

/-- C5: the monthly cost total over a list of assets is the sum, asset by
asset, of monthlyCost plus the four infrastructure sub-costs, each missing or
null field contributing 0; on assets with monthlyCost 10 and monthlyCost 20
with domainCost 5 the monthly total is 35. -/
theorem c5_monthly_total :
    monthlyTotal [assetCost10, assetCost20d5] = 35 ∧
    ∀ (a : Asset) (rest : List Asset),
      monthlyTotal (a :: rest) =
        (a.monthlyCost.getD 0 + a.domainCost.getD 0 + a.sslCost.getD 0 +
          a.hostingCost.getD 0 + a.serverCost.getD 0) + monthlyTotal rest := by
  constructor
  · simp [monthlyTotal, perAssetMonthlyTotal, assetCost10, assetCost20d5]
    norm_num
  · intro a rest
    simp [monthlyTotal, perAssetMonthlyTotal]

/-- C6: the POST /api/assets handler logs exactly one ActivityLog record with
action "created" when and only when the creation succeeds — the record is
appended after the insert, and a run that does not answer with a created
asset (forbidden, validation failure, or a failed insert) leaves the activity
log untouched. -/
theorem c6_create_logs_once (st : Store) (userId : String) (body : AssetBody)
    (newId : String) (insertOk : Bool) :
    (∀ a st', createAssetHandler st userId body newId insertOk = (.created a, st') →
      st'.activityLog = st.activityLog ++
        [⟨a.companyId, userId, "created", "asset", a.id, a.name⟩]) ∧
    (∀ r st', createAssetHandler st userId body newId insertOk = (r, st') →
      (∀ a, r ≠ .created a) → st'.activityLog = st.activityLog) := by
  constructor
  · intro a st' h
    simp only [createAssetHandler] at h
    split at h
    · simp at h
    · split at h
      · split at h
        · rw [Prod.mk.injEq] at h
          obtain ⟨h1, h2⟩ := h
          injection h1 with h1
          subst h1
          subst h2
          simp [logActivity, mkAsset]
        · simp at h
      · simp at h
  · intro r st' h hr
    simp only [createAssetHandler] at h
    split at h
    · rw [Prod.mk.injEq] at h
      obtain ⟨h1, h2⟩ := h
      subst h2
      rfl
    · split at h
      · split at h
        · rw [Prod.mk.injEq] at h
          obtain ⟨h1, h2⟩ := h
          exact absurd h1.symm (hr _)
        · rw [Prod.mk.injEq] at h
          obtain ⟨h1, h2⟩ := h
          subst h2
          rfl
      · rw [Prod.mk.injEq] at h
        obtain ⟨h1, h2⟩ := h
        subst h2
        rfl

/-- C9: POST /api/assets derives the created asset's companyId from the first
entry of the caller's memberships (ignoring any companyId supplied in the
body) and sets assignedTo to the caller; a caller with no membership is
answered 403 with the store unchanged. -/
theorem c9_asset_company_injection (st : Store) (userId : String) (body : AssetBody)
    (newId : String) (insertOk : Bool) :
    (getUserCompanies st userId = [] →
      createAssetHandler st userId body newId insertOk =
        (.forbidden "Usuario no asociado a ninguna empresa activa.", st)) ∧
    (∀ a st', createAssetHandler st userId body newId insertOk = (.created a, st') →
      ∃ uc rest, getUserCompanies st userId = uc :: rest ∧
        a.companyId = uc.companyId ∧ a.assignedTo = some userId ∧ a.id = newId) ∧
    (∀ c, createAssetHandler st userId { body with companyId := c } newId insertOk =
      createAssetHandler st userId body newId insertOk) := by
  refine ⟨?_, ?_, ?_⟩
  · intro hm
    simp [createAssetHandler, hm]
  · intro a st' h
    simp only [createAssetHandler] at h
    split at h
    · simp at h
    · rename_i uc rest hm
      refine ⟨uc, rest, hm, ?_⟩
      split at h
      · split at h
        · rw [Prod.mk.injEq] at h
          obtain ⟨h1, h2⟩ := h
          injection h1 with h1
          subst h1
          exact ⟨rfl, rfl, rfl⟩
        · simp at h
      · simp at h
  · intro c
    cases body
    rfl

/-- A store where user u1 belongs to company A and nothing else exists. -/
def storeC6 : Store :=
  { users := [], companies := [], userCompanies := [⟨"u1", "A", "technical_admin"⟩],
    assets := [], activityLog := [] }

/-- A minimal valid asset body (note: it names no companyId). -/
def bodyC6 : AssetBody :=
  { name := "Printer", type := "physical" }

/-- The asset the handler creates from `bodyC6` for u1 with fresh id n1. -/
def assetC6 : Asset :=
  { id := "n1", companyId := "A", name := "Printer", type := "physical",
    assignedTo := some "u1" }

/-- The store after the successful creation: the asset row plus one log row. -/
def stC6After : Store :=
  { users := [], companies := [], userCompanies := [⟨"u1", "A", "technical_admin"⟩],
    assets := [assetC6],
    activityLog := [⟨"A", "u1", "created", "asset", "n1", "Printer"⟩] }

/-- C6 witness: the theorem applied to a concrete successful creation. -/
theorem c6_create_logs_once_witness :
    stC6After.activityLog = storeC6.activityLog ++
      [⟨"A", "u1", "created", "asset", "n1", "Printer"⟩] :=
  (c6_create_logs_once storeC6 "u1" bodyC6 "n1" true).1 assetC6 stC6After rfl

/-- C9 witness: the theorem applied to a concrete membership-less caller and
to a concrete successful creation. -/
theorem c9_asset_company_injection_witness :
    createAssetHandler emptyStore "u9" bodyC6 "n2" true =
      (.forbidden "Usuario no asociado a ninguna empresa activa.", emptyStore) ∧
    (∃ uc rest, getUserCompanies storeC6 "u1" = uc :: rest ∧
      assetC6.companyId = uc.companyId ∧ assetC6.assignedTo = some "u1" ∧ assetC6.id = "n1") :=
  ⟨(c9_asset_company_injection emptyStore "u9" bodyC6 "n2" true).1 rfl,
   (c9_asset_company_injection storeC6 "u1" bodyC6 "n1" true).2.1 assetC6 stC6After rfl⟩

/-- C7: verifying a token immediately after issuing it succeeds and returns
the role it was issued with, and a token whose signature has been tampered
with decodes to the invalid result. -/
theorem c7_token_roundtrip (secret : String) (payload : TokenInput) (now : Int)
    (roleX : String) (s' : Nat) (hrole : payload.role = some roleX) :
    (jwtUtils.verifyToken secret (.well (jwtUtils.generateToken secret payload now)) now).map
      (fun t => t.claims.role) = some (some roleX) ∧
    (s' ≠ (jwtUtils.generateToken secret payload now).sig →
      jwtUtils.verifyToken secret
        (.well { jwtUtils.generateToken secret payload now with sig := s' }) now = none) := by
  constructor
  · simp [jwtUtils.verifyToken, jwtVerifyLib, jwtUtils.generateToken, jwtSign, hrole,
      sevenDaysSeconds]
  · intro hs
    simp only [jwtUtils.generateToken, jwtSign] at hs
    simp [jwtUtils.verifyToken, jwtVerifyLib, jwtUtils.generateToken, jwtSign, hs]

/-- The payload of a support-admin token request. -/
def tokenInputC7 : TokenInput :=
  { userId := some "u1", email := some "root@corp.com", firstName := some "Ro",
    lastName := some "Ot", role := some "super_admin" }

/-- C7 witness: round trip and tampering at a concrete payload and secret. -/
theorem c7_token_roundtrip_witness :
    (jwtUtils.verifyToken "k" (.well (jwtUtils.generateToken "k" tokenInputC7 0)) 0).map
      (fun t => t.claims.role) = some (some "super_admin") ∧
    jwtUtils.verifyToken "k"
      (.well { jwtUtils.generateToken "k" tokenInputC7 0 with
        sig := (jwtUtils.generateToken "k" tokenInputC7 0).sig + 1 }) 0 = none :=
  have h := c7_token_roundtrip "k" tokenInputC7 0 "super_admin"
    ((jwtUtils.generateToken "k" tokenInputC7 0).sig + 1) rfl
  ⟨h.1, h.2 (by omega)⟩

/-- C8: token verification is total — for every wire input it returns the
decoded token exactly on a well-formed token with a matching signature that
is not yet expired, and the distinguished invalid result (none) exactly on a
malformed token, a bad signature or an expired token; no other outcome
exists. -/
theorem c8_verify_total (secret : String) (w : TokenWire) (now : Int) :
    (∀ t : SignedToken, jwtUtils.verifyToken secret w now = some t ↔
      (w = .well t ∧ t.sig = macHash secret (encClaims t.claims t.iat t.expAt) ∧ now < t.expAt)) ∧
    (jwtUtils.verifyToken secret w now = none ↔
      ((∃ r, w = .malformed r) ∨
        ∃ t, w = .well t ∧
          (t.sig ≠ macHash secret (encClaims t.claims t.iat t.expAt) ∨ t.expAt ≤ now))) := by
  constructor
  · intro t
    cases w with
    | malformed r => simp [jwtUtils.verifyToken, jwtVerifyLib]
    | well u =>
      simp only [jwtUtils.verifyToken, jwtVerifyLib]
      split_ifs with h1 h2
      · constructor
        · intro h
          simp at h
        · rintro ⟨hw, hsig, _⟩
          injection hw with hw
          subst hw
          exact absurd hsig h1
      · constructor
        · intro h
          simp at h
        · rintro ⟨hw, _, hlt⟩
          injection hw with hw
          subst hw
          omega
      · simp only [Option.some.injEq, TokenWire.well.injEq]
        constructor
        · rintro rfl
          exact ⟨rfl, not_not.mp h1, by omega⟩
        · rintro ⟨rfl, _, _⟩
          rfl
  · cases w with
    | malformed r => simp [jwtUtils.verifyToken, jwtVerifyLib]
    | well u =>
      simp only [jwtUtils.verifyToken, jwtVerifyLib]
      split_ifs with h1 h2
      · simp only [true_iff]
        exact Or.inr ⟨u, rfl, Or.inl h1⟩
      · simp only [true_iff]
        exact Or.inr ⟨u, rfl, Or.inr h2⟩
      · constructor
        · intro h
          simp at h
        · rintro (⟨r, hr⟩ | ⟨t, ht, hbad⟩)
          · exact absurd hr (by simp)
          · injection ht with ht
            subst ht
            rcases hbad with hb | hb
            · exact absurd (not_not.mp h1) hb
            · exact absurd hb h2

/-- C10: `generateToken` signs a payload holding exactly userId (falling back
to id), email, firstName, lastName, role and supportMode when present; the
issued token is independent of every other input field — in particular of
iat and exp carried over from a previously decoded token — and always carries
a fresh issued-at and a 7-day expiry, including the tokens reissued by the
support-access and exit-support handlers. -/
theorem c10_generate_payload (secret : String) (p : TokenInput) (now : Int) :
    (jwtUtils.generateToken secret p now).claims =
      { userId := jsOr p.userId p.id, email := p.email, firstName := p.firstName,
        lastName := p.lastName, role := p.role, supportMode := p.supportMode } ∧
    (jwtUtils.generateToken secret p now).iat = now ∧
    (jwtUtils.generateToken secret p now).expAt = now + sevenDaysSeconds ∧
    (∀ q : TokenInput, q.userId = p.userId → q.id = p.id → q.email = p.email →
      q.firstName = p.firstName → q.lastName = p.lastName → q.role = p.role →
      q.supportMode = p.supportMode →
      jwtUtils.generateToken secret q now = jwtUtils.generateToken secret p now) ∧
    (∀ (reqUser : SignedToken) (sm : SupportMode),
      (jwtUtils.generateToken secret (supportAccessPayload reqUser sm) now).expAt =
        now + sevenDaysSeconds ∧
      (jwtUtils.generateToken secret (exitSupportPayload reqUser) now).expAt =
        now + sevenDaysSeconds) := by
  refine ⟨rfl, rfl, rfl, ?_, ?_⟩
  · intro q h1 h2 h3 h4 h5 h6 h7
    simp [jwtUtils.generateToken, jwtSign, h1, h2, h3, h4, h5, h6, h7]
  · intro reqUser sm
    exact ⟨rfl, rfl⟩

/-- A decoded super-admin token, as spread into a support-access payload. -/
def oldTokenC10 : SignedToken :=
  jwtUtils.generateToken "k" tokenInputC7 100

/-- The support-access reissue payload built from the decoded token: it still
carries the old token's iat and exp. -/
def qC10 : TokenInput :=
  supportAccessPayload oldTokenC10 ⟨"B", "u1", "t0"⟩

/-- C10 witness: at a later time the reissued token carries the fresh 7-day
expiry, and stripping the carried-over iat/exp fields changes nothing. -/
theorem c10_generate_payload_witness :
    (jwtUtils.generateToken "k" qC10 5000000).expAt = 5000000 + sevenDaysSeconds ∧
    jwtUtils.generateToken "k" { qC10 with iat := none, exp := none } 5000000 =
      jwtUtils.generateToken "k" qC10 5000000 :=
  have h := c10_generate_payload "k" qC10 5000000
  ⟨h.2.2.1, h.2.2.2.1 { qC10 with iat := none, exp := none } rfl rfl rfl rfl rfl rfl rfl⟩
